import Mathlib

/-
Verification of the WebSocket connection manager of this repository.

The repository contains two near-duplicate implementations of the manager:
  * src/src/hooks/useWebSocket.ts together with src/src/stores/connectionStore.ts
    (exponential backoff, store statuses: connected / disconnected / reconnecting / error),
    embedded below as namespace ExpBackoff;
  * an unnamed variant together with src/src/stores/appStore.ts
    (fixed 3000 ms delay, store statuses: connected / connecting / disconnected / error),
    embedded below as namespace FixedDelay.

Each is embedded as an operational semantics on an explicit machine state.
Sockets are identified by their creation index into a list of readyStates,
all created sockets keep their event handlers attached (exactly as in the
source, where the handlers are assigned on the WebSocket object and never
removed), and pending reconnect timers are a list of timer ids, of which
reconnectTimeoutRef remembers only the most recently scheduled one.

The environment drives the machine through events: user calls (connect,
disconnect, send), timer firings, and socket events (open, close, error,
message).  JSON.parse inside onmessage is modelled by the frame carrying an
Option: some for a frame that parses, none for a parse failure, mirroring
the try/catch around JSON.parse.  Wall-clock reads (new Date()) are the
numeric now argument of the events that perform them.  The emitted field
records every store status write, i.e. the sequence a status observer sees;
sent records every frame the code hands to the transport; delivered records
every invocation of the registered message handler.
-/

namespace GenesisWS

/-- Message shape of both hooks: interface WebSocketMessage has a type string
and an opaque optional payload (named data in one variant, payload in the
other); the payload is opaque to the manager, modelled as Option String. -/
structure WebSocketMessage where
  type : String
  data : Option String := none
  deriving DecidableEq

/-- WebSocket readyState values CONNECTING / OPEN / CLOSING / CLOSED;
the constructor opened stands for OPEN (a Lean keyword). A socket whose
close event has been fired by the platform but not yet delivered to the
handler is in closing. -/
inductive ReadyState where
  | connecting
  | opened
  | closing
  | closed
  deriving DecidableEq

/-- Events driving the manager: the three public calls, a reconnect timer
firing (by timer id), and the socket callbacks (by socket id). sockClose
on a connecting socket is a failure to open; on an opened socket it is an
unexpected close; on a closing socket it delivers the close that the code
itself initiated via close(). The message frame carries some parsed message
or none for a frame on which JSON.parse throws. -/
inductive Event where
  | connect
  | disconnect
  | timerFire (tid : Nat)
  | sockOpen (sid : Nat) (now : Nat)
  | sockClose (sid : Nat)
  | sockError (sid : Nat)
  | message (sid : Nat) (frame : Option WebSocketMessage) (now : Nat)
  | sendMsg (m : WebSocketMessage)
  deriving DecidableEq

namespace ExpBackoff

/-- Status union of src/src/stores/connectionStore.ts: it has no connecting
member. -/
inductive ConnectionStatus where
  | connected
  | disconnected
  | reconnecting
  | error
  deriving DecidableEq

/-- String literal of each status exactly as it appears in the source. -/
def statusStr : ConnectionStatus → String
  | .connected => "connected"
  | .disconnected => "disconnected"
  | .reconnecting => "reconnecting"
  | .error => "error"

/-- Store fields of connectionStore: status, lastSync, errorMessage. -/
structure ConnectionState where
  status : ConnectionStatus
  lastSync : Option Nat
  errorMessage : Option String
  deriving DecidableEq

/-- Whole machine state of the hook: the store, the refs
(reconnectAttempts, wsRef, reconnectTimeoutRef = lastTimer), the set of
created sockets (index = socket id), the pending timers, and the
observation logs emitted / sent / delivered. lastDelay records the delay
argument of the most recent setTimeout call. -/
structure MState where
  store : ConnectionState
  reconnectAttempts : Nat
  wsRef : Option Nat
  sockets : List ReadyState
  pending : List Nat
  lastTimer : Option Nat
  nextTimerId : Nat
  emitted : List ConnectionStatus
  sent : List WebSocketMessage
  delivered : List WebSocketMessage
  lastDelay : Option Nat
  deriving DecidableEq

/-- maxReconnectAttempts = 5 in the source. -/
def maxReconnectAttempts : Nat := 5

/-- readyState of the socket wsRef currently points to, if any. -/
def wsRefState (s : MState) : Option ReadyState :=
  s.wsRef.bind fun i => s.sockets[i]?

/-- setStatus of connectionStore; every call is an observable store write,
recorded in emitted. -/
def setStatus (st : ConnectionStatus) (s : MState) : MState :=
  { s with store := { s.store with status := st }, emitted := s.emitted ++ [st] }

/-- setError of connectionStore. -/
def setError (msg : Option String) (s : MState) : MState :=
  { s with store := { s.store with errorMessage := msg } }

/-- setLastSync of connectionStore (always called with new Date()). -/
def setLastSync (t : Nat) (s : MState) : MState :=
  { s with store := { s.store with lastSync := some t } }

/-- Body of wsRef.current.onopen: setStatus connected; setError null;
setLastSync now; reconnectAttempts = 0. -/
def onopen (s : MState) (t : Nat) : MState :=
  { setLastSync t (setError none (setStatus .connected s)) with reconnectAttempts := 0 }

/-- Body of wsRef.current.onmessage: try JSON.parse, on success setLastSync
then invoke the handler; on a parse failure only console.error runs, which
leaves the state untouched. -/
def onmessage (s : MState) (frame : Option WebSocketMessage) (t : Nat) : MState :=
  match frame with
  | some m => { setLastSync t s with delivered := s.delivered ++ [m] }
  | none => s

/-- attemptReconnect of the hook: at or above the cap it sets status error
with the terminal message and returns; below the cap it sets status
reconnecting, increments the counter, computes
delay = Math.min(1000 * 2 ^ reconnectAttempts, 30000) with the already
incremented counter, and schedules a fresh timer (the ref remembers only
this newest timer id). -/
def attemptReconnect (s : MState) : MState :=
  if maxReconnectAttempts ≤ s.reconnectAttempts then
    setError (some "Max reconnection attempts reached") (setStatus .error s)
  else
    let s1 := { setStatus .reconnecting s with reconnectAttempts := s.reconnectAttempts + 1 }
    { s1 with pending := s1.pending ++ [s1.nextTimerId],
              lastTimer := some s1.nextTimerId,
              nextTimerId := s1.nextTimerId + 1,
              lastDelay := some (min (1000 * 2 ^ s1.reconnectAttempts) 30000) }

/-- Body of wsRef.current.onclose: setStatus disconnected; attemptReconnect. -/
def onclose (s : MState) : MState :=
  attemptReconnect (setStatus .disconnected s)

/-- Body of wsRef.current.onerror: setStatus error; setError message. -/
def onerror (s : MState) : MState :=
  setError (some "WebSocket connection failed") (setStatus .error s)

/-- connect of the hook: if wsRef.current?.readyState === WebSocket.OPEN it
returns at once; otherwise it constructs a new WebSocket (readyState
CONNECTING) and overwrites wsRef with it, leaving any previous socket
object alive with its handlers attached. No store status is written here:
connectionStore has no connecting member. The catch branch of the
constructor (invalid URL) is not modelled; the URL is assumed well formed. -/
def connect (s : MState) : MState :=
  if wsRefState s = some ReadyState.opened then s
  else { s with wsRef := some s.sockets.length,
                sockets := s.sockets ++ [ReadyState.connecting] }

/-- clearTimeout(reconnectTimeoutRef.current) when the ref is non-null: it
cancels the most recently scheduled timer if that one is still pending
(clearTimeout on an already fired or cancelled id is a no-op); the ref
itself is never reset to null. -/
def clearReconnectTimeout (s : MState) : MState :=
  match s.lastTimer with
  | some t => { s with pending := s.pending.erase t }
  | none => s

/-- wsRef.current?.close(): a connecting or open socket moves to closing
(its close event is now due and will later be delivered to onclose, whose
handler is still attached); close() on a closing or closed socket does
nothing. -/
def closeWs (s : MState) : MState :=
  match s.wsRef with
  | none => s
  | some i =>
      if s.sockets[i]? = some ReadyState.connecting ∨ s.sockets[i]? = some ReadyState.opened
      then { s with sockets := s.sockets.set i ReadyState.closing }
      else s

/-- disconnect of the hook: clear the remembered timer, close the current
socket, set status disconnected. -/
def disconnect (s : MState) : MState :=
  setStatus .disconnected (closeWs (clearReconnectTimeout s))

/-- send of the hook: transmit the serialized message only when the current
socket is OPEN; otherwise the call does nothing at all. -/
def send (s : MState) (m : WebSocketMessage) : MState :=
  if wsRefState s = some ReadyState.opened then { s with sent := s.sent ++ [m] } else s

/-- One environment step. Socket events are only deliverable in the
readyState from which the platform can fire them; an event that is not
deliverable leaves the state unchanged. The reconnect timer callback is
() => connect(). -/
def step (s : MState) : Event → MState
  | .connect => connect s
  | .disconnect => disconnect s
  | .timerFire tid =>
      if tid ∈ s.pending then connect { s with pending := s.pending.erase tid } else s
  | .sockOpen i t =>
      if s.sockets[i]? = some ReadyState.connecting
      then onopen { s with sockets := s.sockets.set i ReadyState.opened } t
      else s
  | .sockClose i =>
      if s.sockets[i]? = some ReadyState.connecting ∨ s.sockets[i]? = some ReadyState.opened
         ∨ s.sockets[i]? = some ReadyState.closing
      then onclose { s with sockets := s.sockets.set i ReadyState.closed }
      else s
  | .sockError i =>
      if s.sockets[i]? = some ReadyState.connecting ∨ s.sockets[i]? = some ReadyState.opened
      then onerror { s with sockets := s.sockets.set i ReadyState.closing }
      else s
  | .message i frame t =>
      if s.sockets[i]? = some ReadyState.opened then onmessage s frame t else s
  | .sendMsg m => send s m

/-- Initial state: the store starts disconnected / null / null, the counter
at 0, no socket, no timer. -/
def init : MState :=
  { store := { status := .disconnected, lastSync := none, errorMessage := none }
    reconnectAttempts := 0
    wsRef := none
    sockets := []
    pending := []
    lastTimer := none
    nextTimerId := 0
    emitted := []
    sent := []
    delivered := []
    lastDelay := none }

/-- Run a sequence of events from the initial state. -/
def run (es : List Event) : MState :=
  es.foldl step init

end ExpBackoff

namespace FixedDelay

/-- Status union of src/src/stores/appStore.ts: it has no reconnecting
member. -/
inductive ConnectionStatus where
  | connected
  | connecting
  | disconnected
  | error
  deriving DecidableEq

/-- String literal of each status exactly as it appears in the source. -/
def statusStr : ConnectionStatus → String
  | .connected => "connected"
  | .connecting => "connecting"
  | .disconnected => "disconnected"
  | .error => "error"

/-- Store fields of appStore touched by this hook: connectionStatus and
lastSyncTime (the store has no errorMessage field). -/
structure AppState where
  connectionStatus : ConnectionStatus
  lastSyncTime : Option Nat
  deriving DecidableEq

/-- Machine state of the fixed-delay hook, with the same layout as the
exponential variant: store, refs, socket list, pending timers,
observation logs. -/
structure MState where
  store : AppState
  reconnectAttempts : Nat
  wsRef : Option Nat
  sockets : List ReadyState
  pending : List Nat
  lastTimer : Option Nat
  nextTimerId : Nat
  emitted : List ConnectionStatus
  sent : List WebSocketMessage
  delivered : List WebSocketMessage
  lastDelay : Option Nat
  deriving DecidableEq

/-- Defaults of the options object: reconnectInterval = 3000. -/
def reconnectInterval : Nat := 3000

/-- Defaults of the options object: maxReconnectAttempts = 5. -/
def maxReconnectAttempts : Nat := 5

/-- readyState of the socket wsRef currently points to, if any. -/
def wsRefState (s : MState) : Option ReadyState :=
  s.wsRef.bind fun i => s.sockets[i]?

/-- setConnectionStatus of appStore; every call is recorded in emitted. -/
def setConnectionStatus (st : ConnectionStatus) (s : MState) : MState :=
  { s with store := { s.store with connectionStatus := st }, emitted := s.emitted ++ [st] }

/-- setLastSyncTime of appStore. -/
def setLastSyncTime (t : Nat) (s : MState) : MState :=
  { s with store := { s.store with lastSyncTime := some t } }

/-- Body of wsRef.current.onopen: setConnectionStatus connected;
setLastSyncTime now; reconnectAttempts = 0; the optional onOpen callback
touches no manager state. -/
def onopen (s : MState) (t : Nat) : MState :=
  { setLastSyncTime t (setConnectionStatus .connected s) with reconnectAttempts := 0 }

/-- Body of wsRef.current.onmessage: try JSON.parse, on success
setLastSyncTime then invoke the handler; a parse failure only logs. -/
def onmessage (s : MState) (frame : Option WebSocketMessage) (t : Nat) : MState :=
  match frame with
  | some m => { setLastSyncTime t s with delivered := s.delivered ++ [m] }
  | none => s

/-- Body of wsRef.current.onclose: setConnectionStatus disconnected; then,
if reconnectAttemptsRef.current < maxReconnectAttempts, schedule a timer
with the fixed reconnectInterval delay (3000 ms). The counter is NOT
incremented here but inside the timer callback. No status is ever set to
error on exhaustion. -/
def onclose (s : MState) : MState :=
  let s1 := setConnectionStatus .disconnected s
  if s1.reconnectAttempts < maxReconnectAttempts then
    { s1 with pending := s1.pending ++ [s1.nextTimerId],
              lastTimer := some s1.nextTimerId,
              nextTimerId := s1.nextTimerId + 1,
              lastDelay := some reconnectInterval }
  else s1

/-- Body of wsRef.current.onerror: setConnectionStatus error (the onError
callback touches no manager state). -/
def onerror (s : MState) : MState :=
  setConnectionStatus .error s

/-- connect of the fixed-delay hook: if wsRef.current?.readyState ===
WebSocket.OPEN it returns; otherwise it FIRST writes status connecting and
then constructs the new WebSocket, overwriting wsRef. The constructor
catch branch is not modelled (the URL is assumed well formed). -/
def connect (s : MState) : MState :=
  if wsRefState s = some ReadyState.opened then s
  else
    let s1 := setConnectionStatus .connecting s
    { s1 with wsRef := some s1.sockets.length,
              sockets := s1.sockets ++ [ReadyState.connecting] }

/-- The reconnect timer callback: reconnectAttemptsRef.current++ then
connect(). -/
def timerCb (s : MState) : MState :=
  connect { s with reconnectAttempts := s.reconnectAttempts + 1 }

/-- clearTimeout(reconnectTimeoutRef.current) as in the other variant. -/
def clearReconnectTimeout (s : MState) : MState :=
  match s.lastTimer with
  | some t => { s with pending := s.pending.erase t }
  | none => s

/-- wsRef.current.close() inside disconnect, followed by wsRef = null: a
connecting or open socket moves to closing (its close event stays due,
and the handlers remain attached to the socket object even though wsRef is
nulled). -/
def closeWs (s : MState) : MState :=
  match s.wsRef with
  | none => s
  | some i =>
      let s1 :=
        if s.sockets[i]? = some ReadyState.connecting ∨ s.sockets[i]? = some ReadyState.opened
        then { s with sockets := s.sockets.set i ReadyState.closing }
        else s
      { s1 with wsRef := none }

/-- disconnect of the fixed-delay hook: clear the remembered timer, close
and null the current socket, set status disconnected. -/
def disconnect (s : MState) : MState :=
  setConnectionStatus .disconnected (closeWs (clearReconnectTimeout s))

/-- send of the fixed-delay hook: transmit only when the current socket is
OPEN; otherwise do nothing. -/
def send (s : MState) (m : WebSocketMessage) : MState :=
  if wsRefState s = some ReadyState.opened then { s with sent := s.sent ++ [m] } else s

/-- One environment step of the fixed-delay machine, with the same event
deliverability rules as the exponential one. -/
def step (s : MState) : Event → MState
  | .connect => connect s
  | .disconnect => disconnect s
  | .timerFire tid =>
      if tid ∈ s.pending then timerCb { s with pending := s.pending.erase tid } else s
  | .sockOpen i t =>
      if s.sockets[i]? = some ReadyState.connecting
      then onopen { s with sockets := s.sockets.set i ReadyState.opened } t
      else s
  | .sockClose i =>
      if s.sockets[i]? = some ReadyState.connecting ∨ s.sockets[i]? = some ReadyState.opened
         ∨ s.sockets[i]? = some ReadyState.closing
      then onclose { s with sockets := s.sockets.set i ReadyState.closed }
      else s
  | .sockError i =>
      if s.sockets[i]? = some ReadyState.connecting ∨ s.sockets[i]? = some ReadyState.opened
      then onerror { s with sockets := s.sockets.set i ReadyState.closing }
      else s
  | .message i frame t =>
      if s.sockets[i]? = some ReadyState.opened then onmessage s frame t else s
  | .sendMsg m => send s m

/-- Initial state: connectionStatus disconnected, lastSyncTime null,
counter 0, no socket, no timer. -/
def init : MState :=
  { store := { connectionStatus := .disconnected, lastSyncTime := none }
    reconnectAttempts := 0
    wsRef := none
    sockets := []
    pending := []
    lastTimer := none
    nextTimerId := 0
    emitted := []
    sent := []
    delivered := []
    lastDelay := none }

/-- Run a sequence of events from the initial state. -/
def run (es : List Event) : MState :=
  es.foldl step init

end FixedDelay

/-
Theorems. Claim theorems, their witnesses and counterexamples follow; the
primary embedding is ExpBackoff (the named source file
src/src/hooks/useWebSocket.ts); FixedDelay is used where a claim speaks
about the fixed-delay policy or about the connecting status, which only
that variant has.
-/

section ExpProjections

open ExpBackoff

@[simp] theorem clearRT_store (s : MState) :
    (clearReconnectTimeout s).store = s.store := by
  unfold clearReconnectTimeout; split <;> rfl

@[simp] theorem clearRT_attempts (s : MState) :
    (clearReconnectTimeout s).reconnectAttempts = s.reconnectAttempts := by
  unfold clearReconnectTimeout; split <;> rfl

@[simp] theorem clearRT_sockets (s : MState) :
    (clearReconnectTimeout s).sockets = s.sockets := by
  unfold clearReconnectTimeout; split <;> rfl

@[simp] theorem clearRT_wsRef (s : MState) :
    (clearReconnectTimeout s).wsRef = s.wsRef := by
  unfold clearReconnectTimeout; split <;> rfl

@[simp] theorem closeWs_store (s : MState) : (closeWs s).store = s.store := by
  unfold closeWs; split <;> [rfl; (split <;> rfl)]

@[simp] theorem closeWs_attempts (s : MState) :
    (closeWs s).reconnectAttempts = s.reconnectAttempts := by
  unfold closeWs; split <;> [rfl; (split <;> rfl)]

@[simp] theorem closeWs_pending (s : MState) : (closeWs s).pending = s.pending := by
  unfold closeWs; split <;> [rfl; (split <;> rfl)]

@[simp] theorem closeWs_wsRef (s : MState) : (closeWs s).wsRef = s.wsRef := by
  unfold closeWs; split <;> [rfl; (split <;> rfl)]

@[simp] theorem closeWs_length (s : MState) :
    (closeWs s).sockets.length = s.sockets.length := by
  unfold closeWs; split <;> [rfl; (split <;> simp)]

@[simp] theorem connect_store (s : MState) : (connect s).store = s.store := by
  unfold connect; split <;> rfl

@[simp] theorem connect_attempts (s : MState) :
    (connect s).reconnectAttempts = s.reconnectAttempts := by
  unfold connect; split <;> rfl

@[simp] theorem connect_pending (s : MState) : (connect s).pending = s.pending := by
  unfold connect; split <;> rfl

theorem aR_lastSync (s : MState) :
    (attemptReconnect s).store.lastSync = s.store.lastSync := by
  unfold attemptReconnect; split <;> simp [setStatus, setError]

theorem aR_sockets (s : MState) : (attemptReconnect s).sockets = s.sockets := by
  unfold attemptReconnect; split <;> simp [setStatus, setError]

theorem aR_wsRef (s : MState) : (attemptReconnect s).wsRef = s.wsRef := by
  unfold attemptReconnect; split <;> simp [setStatus, setError]

theorem aR_status_ne_connected (s : MState) :
    (attemptReconnect s).store.status ≠ ConnectionStatus.connected := by
  unfold attemptReconnect; split <;> simp [setStatus, setError]

theorem aR_attempts_ge (s : MState) :
    s.reconnectAttempts ≤ (attemptReconnect s).reconnectAttempts := by
  unfold attemptReconnect; split <;> simp [setStatus, setError]

end ExpProjections

/-- Clock value an event carries, for the events whose handler reads
new Date(): the open event and the message event. -/
def eventClock : Event → Option Nat
  | .sockOpen _ t => some t
  | .message _ _ t => some t
  | _ => none

/-- C5: over any single step of the exponential-backoff manager,
(1) reconnectAttempts never decreases except on a step whose resulting
status is connected, so the counter is monotonically non-decreasing while
the status stays within reconnecting / error (or anywhere outside a
successful open); (2) the counter is 0 after every transition into
connected from another status, i.e. it resets exactly on that transition;
(3) lastSync never moves backward provided the wall clock read by the step
is not behind the time already stored. -/
theorem C5_counter_and_sync_invariants (s : ExpBackoff.MState) (e : Event) :
    ((ExpBackoff.step s e).reconnectAttempts < s.reconnectAttempts →
      (ExpBackoff.step s e).store.status = ExpBackoff.ConnectionStatus.connected) ∧
    (s.store.status ≠ ExpBackoff.ConnectionStatus.connected →
      (ExpBackoff.step s e).store.status = ExpBackoff.ConnectionStatus.connected →
      (ExpBackoff.step s e).reconnectAttempts = 0) ∧
    (∀ t, eventClock e = some t → (∀ u, s.store.lastSync = some u → u ≤ t) →
      ∀ u, s.store.lastSync = some u →
        ∃ v, (ExpBackoff.step s e).store.lastSync = some v ∧ u ≤ v) := by
  refine ⟨?_, ?_, ?_⟩
  · intro h
    cases e with
    | connect =>
        rw [ExpBackoff.step, connect_attempts] at h
        exact absurd h (Nat.lt_irrefl _)
    | disconnect =>
        rw [ExpBackoff.step] at h
        simp [ExpBackoff.disconnect, ExpBackoff.setStatus] at h
    | timerFire tid =>
        rw [ExpBackoff.step] at h
        split at h <;> simp [connect_attempts] at h
    | sockOpen i t =>
        rw [ExpBackoff.step]
        rw [ExpBackoff.step] at h
        split at h
        · simp [ExpBackoff.onopen, ExpBackoff.setStatus, ExpBackoff.setError,
            ExpBackoff.setLastSync, *]
        · exact absurd h (Nat.lt_irrefl _)
    | sockClose i =>
        rw [ExpBackoff.step] at h
        split at h
        · simp only [ExpBackoff.onclose] at h
          have h2 := aR_attempts_ge (ExpBackoff.setStatus
            ExpBackoff.ConnectionStatus.disconnected
            { s with sockets := s.sockets.set i ReadyState.closed })
          exact absurd h (Nat.not_lt.mpr h2)
        · exact absurd h (Nat.lt_irrefl _)
    | sockError i =>
        rw [ExpBackoff.step] at h
        split at h <;>
          simp [ExpBackoff.onerror, ExpBackoff.setStatus, ExpBackoff.setError] at h
    | message i frame t =>
        rw [ExpBackoff.step] at h
        split at h
        · cases frame <;>
            simp [ExpBackoff.onmessage, ExpBackoff.setLastSync] at h
        · exact absurd h (Nat.lt_irrefl _)
    | sendMsg m =>
        rw [ExpBackoff.step] at h
        unfold ExpBackoff.send at h
        split at h <;> simp at h
  · intro hne h
    cases e with
    | connect =>
        rw [ExpBackoff.step, connect_store] at h
        exact absurd h hne
    | disconnect =>
        rw [ExpBackoff.step] at h
        simp [ExpBackoff.disconnect, ExpBackoff.setStatus] at h
    | timerFire tid =>
        rw [ExpBackoff.step] at h
        split at h
        · rw [connect_store] at h
          exact absurd h hne
        · exact absurd h hne
    | sockOpen i t =>
        rw [ExpBackoff.step]
        rw [ExpBackoff.step] at h
        split at h <;> rename_i hh
        · simp [ExpBackoff.onopen, ExpBackoff.setStatus, ExpBackoff.setError,
            ExpBackoff.setLastSync, hh]
        · exact absurd h hne
    | sockClose i =>
        rw [ExpBackoff.step] at h
        split at h
        · exact absurd h (by simp only [ExpBackoff.onclose]; exact aR_status_ne_connected _)
        · exact absurd h hne
    | sockError i =>
        rw [ExpBackoff.step] at h
        split at h
        · simp [ExpBackoff.onerror, ExpBackoff.setStatus, ExpBackoff.setError] at h
        · exact absurd h hne
    | message i frame t =>
        rw [ExpBackoff.step] at h
        split at h
        · cases frame <;>
            simp_all [ExpBackoff.onmessage, ExpBackoff.setLastSync]
        · exact absurd h hne
    | sendMsg m =>
        rw [ExpBackoff.step] at h
        unfold ExpBackoff.send at h
        split at h <;> exact absurd (by simpa using h) hne
  · cases e with
    | sockOpen i tt =>
        intro t hclk hmono u hu
        have htt : tt = t := by simpa [eventClock] using hclk
        rw [ExpBackoff.step]
        split
        · exact ⟨tt, by simp [ExpBackoff.onopen, ExpBackoff.setStatus, ExpBackoff.setError,
            ExpBackoff.setLastSync], by rw [htt]; exact hmono u hu⟩
        · exact ⟨u, hu, le_refl u⟩
    | message i frame tt =>
        intro t hclk hmono u hu
        have htt : tt = t := by simpa [eventClock] using hclk
        rw [ExpBackoff.step]
        split
        · cases frame with
          | some m =>
              exact ⟨tt, by simp [ExpBackoff.onmessage, ExpBackoff.setLastSync],
                by rw [htt]; exact hmono u hu⟩
          | none => exact ⟨u, by simpa [ExpBackoff.onmessage] using hu, le_refl u⟩
        · exact ⟨u, hu, le_refl u⟩
    | connect => intro t hclk; simp [eventClock] at hclk
    | disconnect => intro t hclk; simp [eventClock] at hclk
    | timerFire tid => intro t hclk; simp [eventClock] at hclk
    | sockClose i => intro t hclk; simp [eventClock] at hclk
    | sockError i => intro t hclk; simp [eventClock] at hclk
    | sendMsg m => intro t hclk; simp [eventClock] at hclk

/-- Witness for C5 at concrete inputs: part (2) at the open event of the
first socket from a disconnected state, part (3) at a well-formed frame
arriving at time 9 after a sync at time 5, part (1) instantiated at the
same open step. -/
theorem C5_counter_and_sync_invariants_witness :
    ((ExpBackoff.run [Event.connect]).store.status ≠ ExpBackoff.ConnectionStatus.connected ∧
      (ExpBackoff.step (ExpBackoff.run [Event.connect])
          (Event.sockOpen 0 5)).store.status = ExpBackoff.ConnectionStatus.connected ∧
      (ExpBackoff.step (ExpBackoff.run [Event.connect])
          (Event.sockOpen 0 5)).reconnectAttempts = 0) ∧
    (∃ v, (ExpBackoff.step (ExpBackoff.run [Event.connect, Event.sockOpen 0 5])
        (Event.message 0 (some { type := "log" }) 9)).store.lastSync = some v ∧ 5 ≤ v) := by
  constructor
  · refine ⟨by decide, by decide, ?_⟩
    exact (C5_counter_and_sync_invariants (ExpBackoff.run [Event.connect])
      (Event.sockOpen 0 5)).2.1 (by decide) (by decide)
  · exact (C5_counter_and_sync_invariants (ExpBackoff.run [Event.connect, Event.sockOpen 0 5])
      (Event.message 0 (some { type := "log" }) 9)).2.2 9 rfl (by decide) 5 (by decide)

theorem aR_attempts_le5 (s : ExpBackoff.MState)
    (h : s.reconnectAttempts ≤ 5) :
    (ExpBackoff.attemptReconnect s).reconnectAttempts ≤ 5 := by
  unfold ExpBackoff.attemptReconnect ExpBackoff.maxReconnectAttempts
  split <;> simp [ExpBackoff.setStatus, ExpBackoff.setError] <;> omega

theorem expStep_attempts_le5 (s : ExpBackoff.MState) (e : Event)
    (h : s.reconnectAttempts ≤ 5) :
    (ExpBackoff.step s e).reconnectAttempts ≤ 5 := by
  cases e with
  | connect => rw [ExpBackoff.step, connect_attempts]; exact h
  | disconnect =>
      rw [ExpBackoff.step]
      simpa [ExpBackoff.disconnect, ExpBackoff.setStatus] using h
  | timerFire tid =>
      rw [ExpBackoff.step]
      split
      · rw [connect_attempts]; exact h
      · exact h
  | sockOpen i t =>
      rw [ExpBackoff.step]
      split
      · simp [ExpBackoff.onopen, ExpBackoff.setStatus, ExpBackoff.setError,
          ExpBackoff.setLastSync]
      · exact h
  | sockClose i =>
      rw [ExpBackoff.step]
      split
      · simp only [ExpBackoff.onclose]
        exact aR_attempts_le5 _ h
      · exact h
  | sockError i =>
      rw [ExpBackoff.step]
      split
      · simpa [ExpBackoff.onerror, ExpBackoff.setStatus, ExpBackoff.setError] using h
      · exact h
  | message i frame t =>
      rw [ExpBackoff.step]
      split
      · cases frame <;> simpa [ExpBackoff.onmessage, ExpBackoff.setLastSync] using h
      · exact h
  | sendMsg m =>
      rw [ExpBackoff.step]
      unfold ExpBackoff.send
      split <;> simpa using h

theorem expFoldl_attempts_le5 :
    ∀ (es : List Event) (s : ExpBackoff.MState), s.reconnectAttempts ≤ 5 →
      (es.foldl ExpBackoff.step s).reconnectAttempts ≤ 5
  | [], _, h => h
  | e :: es, s, h =>
      expFoldl_attempts_le5 es (ExpBackoff.step s e) (expStep_attempts_le5 s e h)

/-- C7: the scheduled reconnect delay is a deterministic function of the
reconnectAttempts counter, and the retry loop is bounded by the maximum
attempt count. In the exponential-backoff variant, a call to
attemptReconnect with the counter below the maximum increments the counter
and schedules one timer with delay Math.min(1000 * 2 ^ attempts, 30000)
where attempts is the value the counter holds when setTimeout runs (the
already incremented one, = old counter + 1); at or above the maximum it
schedules nothing and sets status error. In the fixed-delay variant the
close handler schedules with the constant 3000 ms delay exactly when the
counter is below the maximum. Finally, along every event sequence the
exponential-variant counter never exceeds the maximum, so the automatic
loop cannot retry unboundedly. -/
theorem C7_deterministic_bounded_backoff :
    (∀ s : ExpBackoff.MState,
      s.reconnectAttempts < ExpBackoff.maxReconnectAttempts →
      (ExpBackoff.attemptReconnect s).reconnectAttempts = s.reconnectAttempts + 1 ∧
      (ExpBackoff.attemptReconnect s).lastDelay =
        some (min (1000 * 2 ^ (s.reconnectAttempts + 1)) 30000) ∧
      (ExpBackoff.attemptReconnect s).pending = s.pending ++ [s.nextTimerId]) ∧
    (∀ s : ExpBackoff.MState,
      ExpBackoff.maxReconnectAttempts ≤ s.reconnectAttempts →
      (ExpBackoff.attemptReconnect s).pending = s.pending ∧
      (ExpBackoff.attemptReconnect s).store.status = ExpBackoff.ConnectionStatus.error) ∧
    (∀ s : FixedDelay.MState,
      s.reconnectAttempts < FixedDelay.maxReconnectAttempts →
      (FixedDelay.onclose s).lastDelay = some FixedDelay.reconnectInterval ∧
      (FixedDelay.onclose s).pending = s.pending ++ [s.nextTimerId]) ∧
    (∀ s : FixedDelay.MState,
      FixedDelay.maxReconnectAttempts ≤ s.reconnectAttempts →
      (FixedDelay.onclose s).pending = s.pending) ∧
    (∀ es : List Event,
      (ExpBackoff.run es).reconnectAttempts ≤ ExpBackoff.maxReconnectAttempts) := by
  refine ⟨?_, ?_, ?_, ?_, ?_⟩
  · intro s h
    unfold ExpBackoff.attemptReconnect
    rw [if_neg (by simpa [ExpBackoff.maxReconnectAttempts] using Nat.not_le.mpr h)]
    simp [ExpBackoff.setStatus]
  · intro s h
    unfold ExpBackoff.attemptReconnect
    rw [if_pos h]
    simp [ExpBackoff.setStatus, ExpBackoff.setError]
  · intro s h
    unfold FixedDelay.onclose
    rw [if_pos (by simpa [FixedDelay.setConnectionStatus] using h)]
    simp [FixedDelay.setConnectionStatus, FixedDelay.reconnectInterval]
  · intro s h
    unfold FixedDelay.onclose
    rw [if_neg (by simpa [FixedDelay.setConnectionStatus] using Nat.not_lt.mpr h)]
    simp [FixedDelay.setConnectionStatus]
  · intro es
    exact expFoldl_attempts_le5 es ExpBackoff.init (by decide)

/-- Witness for C7: the below-maximum parts instantiated at the initial
states (counter 0), the at-maximum parts at the initial states with the
counter forced to 5. -/
theorem C7_deterministic_bounded_backoff_witness :
    (ExpBackoff.init.reconnectAttempts < ExpBackoff.maxReconnectAttempts ∧
      (ExpBackoff.attemptReconnect ExpBackoff.init).reconnectAttempts = 1 ∧
      (ExpBackoff.attemptReconnect ExpBackoff.init).lastDelay = some 2000) ∧
    ((ExpBackoff.attemptReconnect
        { ExpBackoff.init with reconnectAttempts := 5 }).pending = [] ∧
      (ExpBackoff.attemptReconnect
        { ExpBackoff.init with reconnectAttempts := 5 }).store.status
        = ExpBackoff.ConnectionStatus.error) ∧
    (FixedDelay.onclose FixedDelay.init).lastDelay = some 3000 ∧
    (FixedDelay.onclose
      { FixedDelay.init with reconnectAttempts := 5 }).pending = [] ∧
    (ExpBackoff.run [Event.connect, Event.sockClose 0]).reconnectAttempts
      ≤ ExpBackoff.maxReconnectAttempts := by
  refine ⟨⟨by decide, ?_, ?_⟩, ⟨?_, ?_⟩, ?_, ?_, ?_⟩
  · exact (C7_deterministic_bounded_backoff.1 ExpBackoff.init (by decide)).1
  · exact (C7_deterministic_bounded_backoff.1 ExpBackoff.init (by decide)).2.1
  · simpa using
      (C7_deterministic_bounded_backoff.2.1
        { ExpBackoff.init with reconnectAttempts := 5 } (by decide)).1
  · exact (C7_deterministic_bounded_backoff.2.1
      { ExpBackoff.init with reconnectAttempts := 5 } (by decide)).2
  · exact (C7_deterministic_bounded_backoff.2.2.1 FixedDelay.init (by decide)).1
  · simpa using
      (C7_deterministic_bounded_backoff.2.2.2.1
        { FixedDelay.init with reconnectAttempts := 5 } (by decide))
  · exact C7_deterministic_bounded_backoff.2.2.2.2 [Event.connect, Event.sockClose 0]

/-- A readyState in which a transport is live: connecting or open. -/
def isLive : ReadyState → Bool
  | .connecting => true
  | .opened => true
  | .closing => false
  | .closed => false

/-- Whether the socket with id i is live in state s. -/
def liveAt (s : ExpBackoff.MState) (i : Nat) : Bool :=
  (s.sockets[i]?.map isLive).getD false

/-- A state is calm when every socket ever created has fully closed, or the
current socket is open (in which case connect is a guarded no-op). Calling
connect only in calm states is the discipline under which the manager
keeps a single live socket; the counterexamples show what happens outside
it. -/
def calm (s : ExpBackoff.MState) : Bool :=
  s.sockets.all (fun st => st == ReadyState.closed)
    || (ExpBackoff.wsRefState s == some ReadyState.opened)

/-- An event respects the discipline when it is not a connect attempt, or
the state is calm; connect attempts are the explicit connect call and the
retry timer firing (whose callback is connect). -/
def okEvent (s : ExpBackoff.MState) : Event → Bool
  | .connect => calm s
  | .timerFire _ => calm s
  | _ => true

/-- A trace respects the discipline when every connect attempt in it
happens in a calm state. -/
def disciplined : ExpBackoff.MState → List Event → Bool
  | _, [] => true
  | s, e :: es => okEvent s e && disciplined (ExpBackoff.step s e) es

/-- Invariant carried through disciplined traces: every socket other than
the current one is closed, the store status is connected exactly when the
current socket is open, and before the first connect there is no socket. -/
def Good (s : ExpBackoff.MState) : Prop :=
  (∀ i : Nat, i < s.sockets.length → s.wsRef ≠ some i →
    s.sockets[i]? = some ReadyState.closed) ∧
  (s.store.status = ExpBackoff.ConnectionStatus.connected ↔
    ExpBackoff.wsRefState s = some ReadyState.opened) ∧
  (s.wsRef = none → s.sockets = [])

theorem good_init : Good ExpBackoff.init := by
  refine ⟨?_, ?_, ?_⟩
  · intro i hi
    simp [ExpBackoff.init] at hi
  · simp [ExpBackoff.init, ExpBackoff.wsRefState]
  · intro _; rfl

theorem good_connect (s : ExpBackoff.MState) (hg : Good s) (hcalm : calm s = true) :
    Good (ExpBackoff.connect s) := by
  by_cases ho : ExpBackoff.wsRefState s = some ReadyState.opened
  · rw [ExpBackoff.connect, if_pos ho]; exact hg
  · have hall : ∀ st ∈ s.sockets, st = ReadyState.closed := by
      rcases Bool.or_eq_true _ _ |>.mp hcalm with hc | hc
      · intro st hst
        simpa using List.all_eq_true.mp hc st hst
      · exact absurd (by simpa using hc) ho
    rw [ExpBackoff.connect, if_neg ho]
    refine ⟨?_, ?_, ?_⟩
    · intro i hi hne
      simp only [List.length_append, List.length_cons, List.length_nil] at hi
      have hilt : i < s.sockets.length := by
        rcases Nat.lt_succ_iff_lt_or_eq.mp (by simpa using hi) with h | h
        · exact h
        · exact absurd (by simpa using congrArg some h.symm) hne
      rw [List.getElem?_append_left hilt, List.getElem?_eq_getElem hilt]
      exact congrArg some (hall _ (List.getElem_mem hilt))
    · constructor
      · intro hst
        exact absurd (hg.2.1.mp hst) ho
      · intro hws
        exfalso
        simp only [ExpBackoff.wsRefState, Option.bind_eq_some] at hws
        obtain ⟨a, ha, hget⟩ := hws
        simp only [Option.some.injEq] at ha
        rw [← ha, List.getElem?_concat_length] at hget
        exact ReadyState.noConfusion (Option.some.injEq _ _ ▸ hget)
    · intro h; exact Option.noConfusion h

theorem onopen_sockets (s : ExpBackoff.MState) (t : Nat) :
    (ExpBackoff.onopen s t).sockets = s.sockets := by
  simp [ExpBackoff.onopen, ExpBackoff.setLastSync, ExpBackoff.setError, ExpBackoff.setStatus]

theorem onopen_wsRef (s : ExpBackoff.MState) (t : Nat) :
    (ExpBackoff.onopen s t).wsRef = s.wsRef := by
  simp [ExpBackoff.onopen, ExpBackoff.setLastSync, ExpBackoff.setError, ExpBackoff.setStatus]

theorem onopen_status (s : ExpBackoff.MState) (t : Nat) :
    (ExpBackoff.onopen s t).store.status = ExpBackoff.ConnectionStatus.connected := by
  simp [ExpBackoff.onopen, ExpBackoff.setLastSync, ExpBackoff.setError, ExpBackoff.setStatus]

theorem onclose_sockets (s : ExpBackoff.MState) :
    (ExpBackoff.onclose s).sockets = s.sockets := by
  simp only [ExpBackoff.onclose]
  rw [aR_sockets]
  rfl

theorem onclose_wsRef (s : ExpBackoff.MState) :
    (ExpBackoff.onclose s).wsRef = s.wsRef := by
  simp only [ExpBackoff.onclose]
  rw [aR_wsRef]
  rfl

theorem onclose_status_ne (s : ExpBackoff.MState) :
    (ExpBackoff.onclose s).store.status ≠ ExpBackoff.ConnectionStatus.connected := by
  simp only [ExpBackoff.onclose]
  exact aR_status_ne_connected _

theorem onerror_sockets (s : ExpBackoff.MState) :
    (ExpBackoff.onerror s).sockets = s.sockets := by
  simp [ExpBackoff.onerror, ExpBackoff.setStatus, ExpBackoff.setError]

theorem onerror_wsRef (s : ExpBackoff.MState) :
    (ExpBackoff.onerror s).wsRef = s.wsRef := by
  simp [ExpBackoff.onerror, ExpBackoff.setStatus, ExpBackoff.setError]

theorem onerror_status (s : ExpBackoff.MState) :
    (ExpBackoff.onerror s).store.status = ExpBackoff.ConnectionStatus.error := by
  simp [ExpBackoff.onerror, ExpBackoff.setStatus, ExpBackoff.setError]

theorem onmessage_sockets (s : ExpBackoff.MState) (f : Option WebSocketMessage) (t : Nat) :
    (ExpBackoff.onmessage s f t).sockets = s.sockets := by
  cases f <;> simp [ExpBackoff.onmessage, ExpBackoff.setLastSync]

theorem onmessage_wsRef (s : ExpBackoff.MState) (f : Option WebSocketMessage) (t : Nat) :
    (ExpBackoff.onmessage s f t).wsRef = s.wsRef := by
  cases f <;> simp [ExpBackoff.onmessage, ExpBackoff.setLastSync]

theorem onmessage_status (s : ExpBackoff.MState) (f : Option WebSocketMessage) (t : Nat) :
    (ExpBackoff.onmessage s f t).store.status = s.store.status := by
  cases f <;> simp [ExpBackoff.onmessage, ExpBackoff.setLastSync]

theorem send_sockets (s : ExpBackoff.MState) (m : WebSocketMessage) :
    (ExpBackoff.send s m).sockets = s.sockets := by
  unfold ExpBackoff.send; split <;> rfl

theorem send_wsRef (s : ExpBackoff.MState) (m : WebSocketMessage) :
    (ExpBackoff.send s m).wsRef = s.wsRef := by
  unfold ExpBackoff.send; split <;> rfl

theorem send_store (s : ExpBackoff.MState) (m : WebSocketMessage) :
    (ExpBackoff.send s m).store = s.store := by
  unfold ExpBackoff.send; split <;> rfl

theorem closeWs_getElem_ne (s : ExpBackoff.MState) (j : Nat) (hne : s.wsRef ≠ some j) :
    (ExpBackoff.closeWs s).sockets[j]? = s.sockets[j]? := by
  unfold ExpBackoff.closeWs
  rcases hw : s.wsRef with _ | i
  · simp only [hw]
  · simp only [hw]
    split
    · have hij : i ≠ j := fun h => hne (h ▸ hw)
      simp [List.getElem?_set_ne hij]
    · rfl

theorem closeWs_wsRefState_ne_open (s : ExpBackoff.MState) :
    ExpBackoff.wsRefState (ExpBackoff.closeWs s) ≠ some ReadyState.opened := by
  unfold ExpBackoff.closeWs
  rcases hw : s.wsRef with _ | i
  · simp only [hw, ExpBackoff.wsRefState, hw, Option.bind]
    simp
  · simp only [hw]
    split
    · rename_i hguard
      have hi : i < s.sockets.length := by
        rcases hguard with h | h <;> exact (List.getElem?_eq_some.mp h).1
      simp [ExpBackoff.wsRefState, hw, List.getElem?_set_self hi]
    · rename_i hguard
      push_neg at hguard
      simp only [ExpBackoff.wsRefState, hw, Option.bind]
      intro hcon
      exact hguard.2 hcon

/-- A socket that is not closed must be the current one, in a Good state. -/
theorem wsRef_of_live (s : ExpBackoff.MState) (hg : Good s) (i : Nat) (st : ReadyState)
    (hst : s.sockets[i]? = some st) (hlive : st ≠ ReadyState.closed) :
    s.wsRef = some i := by
  by_contra hne
  have hi : i < s.sockets.length := (List.getElem?_eq_some.mp hst).1
  have hcl := hg.1 i hi hne
  rw [hst] at hcl
  exact hlive (by simpa using hcl)

theorem good_step (s : ExpBackoff.MState) (e : Event) (hg : Good s)
    (hok : okEvent s e = true) : Good (ExpBackoff.step s e) := by
  cases e with
  | connect => exact good_connect s hg (by simpa [okEvent] using hok)
  | timerFire tid =>
      rw [ExpBackoff.step]
      split
      · exact good_connect { s with pending := s.pending.erase tid } hg
          (by simpa [okEvent] using hok)
      · exact hg
  | disconnect =>
      rw [ExpBackoff.step]
      simp only [ExpBackoff.disconnect]
      refine ⟨?_, ?_, ?_⟩
      · intro i hi hne
        simp only [ExpBackoff.setStatus] at hi hne ⊢
        have hne2 : (ExpBackoff.clearReconnectTimeout s).wsRef ≠ some i := by
          rw [clearRT_wsRef]
          rw [closeWs_wsRef, clearRT_wsRef] at hne
          exact hne
        rw [closeWs_getElem_ne _ i hne2, clearRT_sockets]
        refine hg.1 i ?_ ?_
        · rw [closeWs_length] at hi
          simpa [clearRT_sockets] using hi
        · rw [closeWs_wsRef, clearRT_wsRef] at hne
          exact hne
      · constructor
        · intro hst
          exact absurd hst (by simp [ExpBackoff.setStatus])
        · intro hws
          exfalso
          have : ExpBackoff.wsRefState
              (ExpBackoff.closeWs (ExpBackoff.clearReconnectTimeout s))
                = some ReadyState.opened := by
            simpa [ExpBackoff.wsRefState, ExpBackoff.setStatus] using hws
          exact closeWs_wsRefState_ne_open _ this
      · intro hnone
        simp only [ExpBackoff.setStatus] at hnone ⊢
        rw [closeWs_wsRef, clearRT_wsRef] at hnone
        have hempty := hg.2.2 hnone
        have : (ExpBackoff.closeWs (ExpBackoff.clearReconnectTimeout s)).sockets
            = s.sockets := by
          unfold ExpBackoff.closeWs
          rw [clearRT_wsRef, hnone]
          exact clearRT_sockets s
        rw [this]
        exact hempty
  | sockOpen i t =>
      rw [ExpBackoff.step]
      split
      · rename_i hen
        have hw : s.wsRef = some i := wsRef_of_live s hg i _ hen (by decide)
        have hi : i < s.sockets.length := (List.getElem?_eq_some.mp hen).1
        refine ⟨?_, ?_, ?_⟩
        · intro j hj hne
          rw [onopen_sockets] at hj ⊢
          rw [onopen_wsRef] at hne
          have hij : i ≠ j := by
            intro h
            exact hne (by rw [← h]; exact hw)
          rw [List.getElem?_set_ne hij]
          exact hg.1 j (by simpa using hj) hne
        · rw [onopen_status]
          simp only [true_iff]
          simp only [ExpBackoff.wsRefState, onopen_wsRef, onopen_sockets]
          rw [hw]
          simp [List.getElem?_set_self hi]
        · intro hnone
          rw [onopen_wsRef] at hnone
          exact absurd hnone (by rw [hw]; exact fun h => Option.noConfusion h)
      · exact hg
  | sockClose i =>
      rw [ExpBackoff.step]
      split
      · rename_i hen
        have hw : s.wsRef = some i := by
          rcases hen with h | h | h <;> exact wsRef_of_live s hg i _ h (by decide)
        have hi : i < s.sockets.length := by
          rcases hen with h | h | h <;> exact (List.getElem?_eq_some.mp h).1
        refine ⟨?_, ?_, ?_⟩
        · intro j hj hne
          rw [onclose_sockets] at hj ⊢
          rw [onclose_wsRef] at hne
          have hij : i ≠ j := by
            intro h
            exact hne (by rw [← h]; exact hw)
          rw [List.getElem?_set_ne hij]
          exact hg.1 j (by simpa using hj) hne
        · constructor
          · intro hst
            exact absurd hst (onclose_status_ne _)
          · intro hws
            exfalso
            simp only [ExpBackoff.wsRefState, onclose_wsRef, onclose_sockets] at hws
            rw [hw] at hws
            simp [List.getElem?_set_self hi] at hws
        · intro hnone
          rw [onclose_wsRef] at hnone
          exact absurd hnone (by rw [hw]; exact fun h => Option.noConfusion h)
      · exact hg
  | sockError i =>
      rw [ExpBackoff.step]
      split
      · rename_i hen
        have hw : s.wsRef = some i := by
          rcases hen with h | h <;> exact wsRef_of_live s hg i _ h (by decide)
        have hi : i < s.sockets.length := by
          rcases hen with h | h <;> exact (List.getElem?_eq_some.mp h).1
        refine ⟨?_, ?_, ?_⟩
        · intro j hj hne
          rw [onerror_sockets] at hj ⊢
          rw [onerror_wsRef] at hne
          have hij : i ≠ j := by
            intro h
            exact hne (by rw [← h]; exact hw)
          rw [List.getElem?_set_ne hij]
          exact hg.1 j (by simpa using hj) hne
        · constructor
          · intro hst
            rw [onerror_status] at hst
            exact absurd hst (by decide)
          · intro hws
            exfalso
            simp only [ExpBackoff.wsRefState, onerror_wsRef, onerror_sockets] at hws
            rw [hw] at hws
            simp [List.getElem?_set_self hi] at hws
        · intro hnone
          rw [onerror_wsRef] at hnone
          exact absurd hnone (by rw [hw]; exact fun h => Option.noConfusion h)
      · exact hg
  | message i frame t =>
      rw [ExpBackoff.step]
      split
      · refine ⟨?_, ?_, ?_⟩
        · intro j hj hne
          rw [onmessage_sockets] at hj ⊢
          rw [onmessage_wsRef] at hne
          exact hg.1 j hj hne
        · rw [onmessage_status]
          simpa [ExpBackoff.wsRefState, onmessage_wsRef, onmessage_sockets] using hg.2.1
        · intro hnone
          rw [onmessage_wsRef] at hnone
          rw [onmessage_sockets]
          exact hg.2.2 hnone
      · exact hg
  | sendMsg m =>
      rw [ExpBackoff.step]
      refine ⟨?_, ?_, ?_⟩
      · intro j hj hne
        rw [send_sockets] at hj ⊢
        rw [send_wsRef] at hne
        exact hg.1 j hj hne
      · rw [send_store]
        simpa [ExpBackoff.wsRefState, send_wsRef, send_sockets] using hg.2.1
      · intro hnone
        rw [send_wsRef] at hnone
        rw [send_sockets]
        exact hg.2.2 hnone

theorem good_run :
    ∀ (es : List Event) (s : ExpBackoff.MState), Good s → disciplined s es = true →
      Good (es.foldl ExpBackoff.step s)
  | [], _, hg, _ => hg
  | e :: es, s, hg, hd => by
      rw [List.foldl_cons]
      have hd2 := Bool.and_eq_true _ _ |>.mp (by simpa [disciplined] using hd)
      exact good_run es (ExpBackoff.step s e) (good_step s e hg hd2.1) hd2.2

/-- C2 (amended): connect() while the current socket is OPEN is an
idempotent no-op — the machine state is returned unchanged, so there is
never a replacement; and along every disciplined trace, i.e. one in which
connect() is only invoked (explicitly or by the retry timer) in a calm
state (every previously created socket fully closed, or the current one
open), at most one socket is live at any time. The guard in the source
checks only readyState === OPEN, so the discipline hypothesis is needed:
the counterexample shows a second connect() issued while the first socket
is still connecting creates a second simultaneously live transport. -/
theorem C2_single_live_socket :
    (∀ s : ExpBackoff.MState, ExpBackoff.wsRefState s = some ReadyState.opened →
      ExpBackoff.step s Event.connect = s) ∧
    (∀ (es : List Event) (i j : Nat), disciplined ExpBackoff.init es = true →
      liveAt (ExpBackoff.run es) i = true → liveAt (ExpBackoff.run es) j = true →
      i = j) := by
  constructor
  · intro s h
    rw [ExpBackoff.step, ExpBackoff.connect, if_pos h]
  · intro es i j hd hi hj
    have hg := good_run es ExpBackoff.init good_init hd
    have key : ∀ k, liveAt (ExpBackoff.run es) k = true →
        (ExpBackoff.run es).wsRef = some k := by
      intro k hk
      unfold liveAt at hk
      rcases hget : (ExpBackoff.run es).sockets[k]? with _ | st
      · rw [hget] at hk; simp at hk
      · rw [hget] at hk
        simp only [Option.map, Option.getD] at hk
        refine wsRef_of_live _ hg k st hget ?_
        intro h
        rw [h] at hk
        simp [isLive] at hk
    have h1 := key i hi
    have h2 := key j hj
    rw [h1] at h2
    exact Option.some.inj h2

/-- Witness for C2: the no-op part at an open connection, the uniqueness
part on the one-event disciplined trace. -/
theorem C2_single_live_socket_witness :
    (ExpBackoff.wsRefState (ExpBackoff.run [Event.connect, Event.sockOpen 0 3])
        = some ReadyState.opened ∧
      ExpBackoff.step (ExpBackoff.run [Event.connect, Event.sockOpen 0 3]) Event.connect
        = ExpBackoff.run [Event.connect, Event.sockOpen 0 3]) ∧
    (disciplined ExpBackoff.init [Event.connect] = true ∧
      liveAt (ExpBackoff.run [Event.connect]) 0 = true ∧ (0 : Nat) = 0) := by
  refine ⟨⟨by decide, ?_⟩, by decide, by decide, ?_⟩
  · exact C2_single_live_socket.1 _ (by decide)
  · exact C2_single_live_socket.2 [Event.connect] 0 0 (by decide) (by decide) (by decide)

/-- C2 counterexample: the claim that the manager never has two
simultaneously live sockets is false as stated. After connect() is called
twice in a row — the second call while the first socket is still
connecting, so the readyState === OPEN guard does not fire — the state
holds two live (connecting) transports at once, and both can go on to
open. -/
theorem C2_two_live_sockets_cex :
    liveAt (ExpBackoff.run [Event.connect, Event.connect]) 0 = true ∧
    liveAt (ExpBackoff.run [Event.connect, Event.connect]) 1 = true ∧
    (ExpBackoff.run [Event.connect, Event.connect]).sockets.length = 2 := by decide

/-- C8 (amended): send(m) appends m to the transmitted frames exactly when
the current socket is OPEN, and in every other case the call leaves the
state completely unchanged — nothing queued, no error surfaced. Along
disciplined traces the socket-open condition coincides with status ==
connected, which is the form the claim states; outside the discipline the
counterexample shows a transmit while the status is reconnecting. -/
theorem C8_send_only_when_open :
    (∀ (s : ExpBackoff.MState) (m : WebSocketMessage),
      ExpBackoff.wsRefState s = some ReadyState.opened →
      ExpBackoff.step s (Event.sendMsg m) = { s with sent := s.sent ++ [m] }) ∧
    (∀ (s : ExpBackoff.MState) (m : WebSocketMessage),
      ¬ ExpBackoff.wsRefState s = some ReadyState.opened →
      ExpBackoff.step s (Event.sendMsg m) = s) ∧
    (∀ es : List Event, disciplined ExpBackoff.init es = true →
      ((ExpBackoff.run es).store.status = ExpBackoff.ConnectionStatus.connected ↔
        ExpBackoff.wsRefState (ExpBackoff.run es) = some ReadyState.opened)) := by
  refine ⟨?_, ?_, ?_⟩
  · intro s m h
    rw [ExpBackoff.step, ExpBackoff.send, if_pos h]
  · intro s m h
    rw [ExpBackoff.step, ExpBackoff.send, if_neg h]
  · intro es hd
    exact (good_run es ExpBackoff.init good_init hd).2.1

/-- Witness for C8: transmit at an open connection, silent drop at the
initial (disconnected) state, and the status-open equivalence on a
disciplined trace. -/
theorem C8_send_only_when_open_witness :
    (ExpBackoff.wsRefState (ExpBackoff.run [Event.connect, Event.sockOpen 0 3])
        = some ReadyState.opened ∧
      ExpBackoff.step (ExpBackoff.run [Event.connect, Event.sockOpen 0 3])
          (Event.sendMsg { type := "query" })
        = { ExpBackoff.run [Event.connect, Event.sockOpen 0 3] with
              sent := (ExpBackoff.run [Event.connect, Event.sockOpen 0 3]).sent
                ++ [{ type := "query" }] }) ∧
    ExpBackoff.step ExpBackoff.init (Event.sendMsg { type := "query" }) = ExpBackoff.init ∧
    (disciplined ExpBackoff.init [Event.connect] = true ∧
      ((ExpBackoff.run [Event.connect]).store.status = ExpBackoff.ConnectionStatus.connected ↔
        ExpBackoff.wsRefState (ExpBackoff.run [Event.connect]) = some ReadyState.opened)) := by
  refine ⟨⟨by decide, ?_⟩, ?_, by decide, ?_⟩
  · exact C8_send_only_when_open.1 _ { type := "query" } (by decide)
  · exact C8_send_only_when_open.2.1 ExpBackoff.init { type := "query" } (by decide)
  · exact C8_send_only_when_open.2.2 [Event.connect] (by decide)

/-- C8 counterexample: the claim that send transmits only when the status
is connected is false as stated. Two overlapping connect() calls leave an
orphaned socket; after the kept socket opens (status connected) the
orphaned one fails, its still-attached close handler drives the status to
reconnecting and schedules a retry — yet the current socket is still open,
so send() transmits while the status is reconnecting, not connected. -/
theorem C8_transmit_while_not_connected_cex :
    (ExpBackoff.run [Event.connect, Event.connect, Event.sockOpen 1 5, Event.sockClose 0,
        Event.sendMsg { type := "log" }]).sent = [{ type := "log" }] ∧
    (ExpBackoff.run [Event.connect, Event.connect, Event.sockOpen 1 5, Event.sockClose 0,
        Event.sendMsg { type := "log" }]).store.status
      = ExpBackoff.ConnectionStatus.reconnecting := by decide

theorem closeWs_sockets_of_closed (s : ExpBackoff.MState)
    (hcl : ∀ st ∈ s.sockets, st = ReadyState.closed) :
    (ExpBackoff.closeWs s).sockets = s.sockets := by
  unfold ExpBackoff.closeWs
  rcases hw : s.wsRef with _ | i
  · simp only [hw]
  · simp only [hw]
    split
    · rename_i hguard
      exfalso
      rcases hguard with h | h <;>
      · obtain ⟨hi, hv⟩ := List.getElem?_eq_some.mp h
        have hc := hcl _ (List.getElem_mem hi)
        rw [hv] at hc
        exact ReadyState.noConfusion hc
    · rfl

theorem quiet_step (r : ExpBackoff.MState) (e : Event) (hne : e ≠ Event.connect)
    (hst : r.store.status = ExpBackoff.ConnectionStatus.disconnected)
    (hp : r.pending = []) (hcl : ∀ st ∈ r.sockets, st = ReadyState.closed) :
    (ExpBackoff.step r e).store.status = ExpBackoff.ConnectionStatus.disconnected ∧
    (ExpBackoff.step r e).pending = [] ∧
    (ExpBackoff.step r e).sockets = r.sockets := by
  have hclosed : ∀ (i : Nat) (st : ReadyState), r.sockets[i]? = some st →
      st = ReadyState.closed := by
    intro i st h
    obtain ⟨hi, hv⟩ := List.getElem?_eq_some.mp h
    rw [← hv]
    exact hcl _ (List.getElem_mem hi)
  cases e with
  | connect => exact (hne rfl).elim
  | disconnect =>
      rw [ExpBackoff.step]
      simp only [ExpBackoff.disconnect, ExpBackoff.setStatus]
      refine ⟨by trivial, ?_, ?_⟩
      · rw [closeWs_pending]
        unfold ExpBackoff.clearReconnectTimeout
        rcases hlt : r.lastTimer with _ | t
        · simpa using hp
        · simp [hp]
      · rw [closeWs_sockets_of_closed _ (by rw [clearRT_sockets]; exact hcl)]
        exact clearRT_sockets r
  | timerFire tid =>
      rw [ExpBackoff.step]
      split
      · rename_i hmem
        rw [hp] at hmem
        simp at hmem
      · exact ⟨hst, hp, rfl⟩
  | sockOpen i t =>
      rw [ExpBackoff.step]
      split
      · rename_i hen
        exact absurd (hclosed i _ hen) (by decide)
      · exact ⟨hst, hp, rfl⟩
  | sockClose i =>
      rw [ExpBackoff.step]
      split
      · rename_i hen
        rcases hen with h | h | h <;> exact absurd (hclosed i _ h) (by decide)
      · exact ⟨hst, hp, rfl⟩
  | sockError i =>
      rw [ExpBackoff.step]
      split
      · rename_i hen
        rcases hen with h | h <;> exact absurd (hclosed i _ h) (by decide)
      · exact ⟨hst, hp, rfl⟩
  | message i frame t =>
      rw [ExpBackoff.step]
      split
      · rename_i hen
        exact absurd (hclosed i _ hen) (by decide)
      · exact ⟨hst, hp, rfl⟩
  | sendMsg m =>
      rw [ExpBackoff.step]
      unfold ExpBackoff.send
      split
      · rename_i hsend
        simp only [ExpBackoff.wsRefState, Option.bind_eq_some] at hsend
        obtain ⟨a, _, hget⟩ := hsend
        exact absurd (hclosed a _ hget) (by decide)
      · exact ⟨hst, hp, rfl⟩

theorem quiet_run :
    ∀ (es : List Event) (r : ExpBackoff.MState), (∀ e ∈ es, e ≠ Event.connect) →
      r.store.status = ExpBackoff.ConnectionStatus.disconnected → r.pending = [] →
      (∀ st ∈ r.sockets, st = ReadyState.closed) →
      (es.foldl ExpBackoff.step r).store.status = ExpBackoff.ConnectionStatus.disconnected ∧
      (es.foldl ExpBackoff.step r).pending = [] ∧
      (es.foldl ExpBackoff.step r).sockets = r.sockets
  | [], _, _, h1, h2, _ => ⟨h1, h2, rfl⟩
  | e :: es, r, hne, h1, h2, h3 => by
      rw [List.foldl_cons]
      have hq := quiet_step r e (hne e (List.mem_cons_self e es)) h1 h2 h3
      have h3s : ∀ st ∈ (ExpBackoff.step r e).sockets, st = ReadyState.closed := by
        rw [hq.2.2]; exact h3
      have hrest := quiet_run es (ExpBackoff.step r e)
        (fun x hx => hne x (List.mem_cons_of_mem _ hx)) hq.1 hq.2.1 h3s
      exact ⟨hrest.1, hrest.2.1, by rw [hrest.2.2, hq.2.2]⟩

/-- C1 (amended): when disconnect() is called in a state where the pending
reconnect timer (the one the ref remembers) is the only pending timer and
every socket created so far has fully closed — the normal situation while
a retry is awaited — the call cancels the retry and sets status
disconnected, and along any subsequent event sequence containing no
explicit connect() the status stays disconnected (never reconnecting; this
variant has no connecting status at all), no timer is pending and no new
socket is ever created, i.e. no automatic reconnect attempt occurs. The
counterexample shows the guarantee fails as originally stated when a
not-yet-closed socket exists at the moment of the call: its delayed close
event re-arms the retry loop. -/
theorem C1_disconnect_cancels_retry (s : ExpBackoff.MState) (t : Nat) (es : List Event)
    (hlt : s.lastTimer = some t) (hp : s.pending = [t])
    (hcl : ∀ st ∈ s.sockets, st = ReadyState.closed)
    (hnc : ∀ e ∈ es, e ≠ Event.connect) :
    (ExpBackoff.step s Event.disconnect).store.status
        = ExpBackoff.ConnectionStatus.disconnected ∧
    (ExpBackoff.step s Event.disconnect).pending = [] ∧
    (es.foldl ExpBackoff.step (ExpBackoff.step s Event.disconnect)).store.status
        = ExpBackoff.ConnectionStatus.disconnected ∧
    (es.foldl ExpBackoff.step (ExpBackoff.step s Event.disconnect)).pending = [] ∧
    (es.foldl ExpBackoff.step (ExpBackoff.step s Event.disconnect)).sockets = s.sockets := by
  have h1 : (ExpBackoff.step s Event.disconnect).store.status
      = ExpBackoff.ConnectionStatus.disconnected := by
    rw [ExpBackoff.step]
    simp [ExpBackoff.disconnect, ExpBackoff.setStatus]
  have h2 : (ExpBackoff.step s Event.disconnect).pending = [] := by
    rw [ExpBackoff.step]
    simp only [ExpBackoff.disconnect, ExpBackoff.setStatus]
    rw [closeWs_pending]
    unfold ExpBackoff.clearReconnectTimeout
    rw [hlt]
    simp [hp]
  have h3 : (ExpBackoff.step s Event.disconnect).sockets = s.sockets := by
    rw [ExpBackoff.step]
    simp only [ExpBackoff.disconnect, ExpBackoff.setStatus]
    rw [closeWs_sockets_of_closed _ (by rw [clearRT_sockets]; exact hcl)]
    exact clearRT_sockets s
  have hq := quiet_run es (ExpBackoff.step s Event.disconnect) hnc h1 h2
    (by rw [h3]; exact hcl)
  exact ⟨h1, h2, hq.1, hq.2.1, by rw [hq.2.2, h3]⟩

/-- Witness for C1 at the concrete retry-wait state reached by one failed
open: the timer is pending and alone, the socket closed; after disconnect,
delivering the stale close and firing the cancelled timer id changes
nothing: status stays disconnected, no timer, no new socket. -/
theorem C1_disconnect_cancels_retry_witness :
    ((ExpBackoff.run [Event.connect, Event.sockClose 0]).lastTimer = some 0 ∧
      (ExpBackoff.run [Event.connect, Event.sockClose 0]).pending = [0] ∧
      (∀ st ∈ (ExpBackoff.run [Event.connect, Event.sockClose 0]).sockets,
        st = ReadyState.closed)) ∧
    (ExpBackoff.step (ExpBackoff.run [Event.connect, Event.sockClose 0])
        Event.disconnect).pending = [] ∧
    ([Event.sockClose 0, Event.timerFire 0].foldl ExpBackoff.step
        (ExpBackoff.step (ExpBackoff.run [Event.connect, Event.sockClose 0])
          Event.disconnect)).store.status = ExpBackoff.ConnectionStatus.disconnected ∧
    ([Event.sockClose 0, Event.timerFire 0].foldl ExpBackoff.step
        (ExpBackoff.step (ExpBackoff.run [Event.connect, Event.sockClose 0])
          Event.disconnect)).sockets
      = (ExpBackoff.run [Event.connect, Event.sockClose 0]).sockets := by
  have h := C1_disconnect_cancels_retry (ExpBackoff.run [Event.connect, Event.sockClose 0]) 0
    [Event.sockClose 0, Event.timerFire 0] (by decide) (by decide) (by decide) (by decide)
  exact ⟨⟨by decide, by decide, by decide⟩, h.2.1, h.2.2.1, h.2.2.2.2⟩

/-- C1 counterexample: the claim is false as stated. Trace: a first
connect fails, which schedules retry timer 0 (pending); the user then
calls connect() explicitly (socket 1 starts connecting — timer 0 is NOT
cleared by connect) and immediately disconnect() while timer 0 is pending.
disconnect clears timer 0 and closes socket 1. But the delivered close
event of socket 1 — with no further connect() anywhere in the trace —
drives the status back to reconnecting and schedules fresh timer 1, whose
firing creates a third socket: an automatic reconnect attempt after
disconnect(). -/
theorem C1_reconnect_after_disconnect_cex :
    (ExpBackoff.run [Event.connect, Event.sockClose 0, Event.connect]).pending = [0] ∧
    (ExpBackoff.run [Event.connect, Event.sockClose 0, Event.connect,
        Event.disconnect]).pending = [] ∧
    (ExpBackoff.run [Event.connect, Event.sockClose 0, Event.connect,
        Event.disconnect]).store.status = ExpBackoff.ConnectionStatus.disconnected ∧
    (ExpBackoff.run [Event.connect, Event.sockClose 0, Event.connect, Event.disconnect,
        Event.sockClose 1]).store.status = ExpBackoff.ConnectionStatus.reconnecting ∧
    (ExpBackoff.run [Event.connect, Event.sockClose 0, Event.connect, Event.disconnect,
        Event.sockClose 1]).pending = [1] ∧
    (ExpBackoff.run [Event.connect, Event.sockClose 0, Event.connect, Event.disconnect,
        Event.sockClose 1, Event.timerFire 1]).sockets.length = 3 := by decide

/-- C3 (amended): the retry loop stops only after maxReconnectAttempts + 1
= 6 consecutive open failures, with reconnectAttempts = 5. In the
exponential variant the sixth failure sets status error (with the terminal
message) and schedules nothing further; in the fixed-delay variant the
sixth failure leaves status disconnected — that variant never reaches
error on exhaustion — and schedules nothing further. -/
theorem C3_exhaustion_after_six_failures :
    ((ExpBackoff.run [Event.connect, Event.sockClose 0, Event.timerFire 0,
        Event.sockClose 1, Event.timerFire 1, Event.sockClose 2, Event.timerFire 2,
        Event.sockClose 3, Event.timerFire 3, Event.sockClose 4, Event.timerFire 4,
        Event.sockClose 5]).store.status = ExpBackoff.ConnectionStatus.error ∧
      (ExpBackoff.run [Event.connect, Event.sockClose 0, Event.timerFire 0,
        Event.sockClose 1, Event.timerFire 1, Event.sockClose 2, Event.timerFire 2,
        Event.sockClose 3, Event.timerFire 3, Event.sockClose 4, Event.timerFire 4,
        Event.sockClose 5]).store.errorMessage = some "Max reconnection attempts reached" ∧
      (ExpBackoff.run [Event.connect, Event.sockClose 0, Event.timerFire 0,
        Event.sockClose 1, Event.timerFire 1, Event.sockClose 2, Event.timerFire 2,
        Event.sockClose 3, Event.timerFire 3, Event.sockClose 4, Event.timerFire 4,
        Event.sockClose 5]).reconnectAttempts = 5 ∧
      (ExpBackoff.run [Event.connect, Event.sockClose 0, Event.timerFire 0,
        Event.sockClose 1, Event.timerFire 1, Event.sockClose 2, Event.timerFire 2,
        Event.sockClose 3, Event.timerFire 3, Event.sockClose 4, Event.timerFire 4,
        Event.sockClose 5]).pending = []) ∧
    ((FixedDelay.run [Event.connect, Event.sockClose 0, Event.timerFire 0,
        Event.sockClose 1, Event.timerFire 1, Event.sockClose 2, Event.timerFire 2,
        Event.sockClose 3, Event.timerFire 3, Event.sockClose 4, Event.timerFire 4,
        Event.sockClose 5]).store.connectionStatus = FixedDelay.ConnectionStatus.disconnected ∧
      (FixedDelay.run [Event.connect, Event.sockClose 0, Event.timerFire 0,
        Event.sockClose 1, Event.timerFire 1, Event.sockClose 2, Event.timerFire 2,
        Event.sockClose 3, Event.timerFire 3, Event.sockClose 4, Event.timerFire 4,
        Event.sockClose 5]).reconnectAttempts = 5 ∧
      (FixedDelay.run [Event.connect, Event.sockClose 0, Event.timerFire 0,
        Event.sockClose 1, Event.timerFire 1, Event.sockClose 2, Event.timerFire 2,
        Event.sockClose 3, Event.timerFire 3, Event.sockClose 4, Event.timerFire 4,
        Event.sockClose 5]).pending = []) := by decide

/-- C3 counterexample: the claim is false at N = 5 = max in the fixed-delay
scenario the spec itself names (max 5, delay 3000 ms). After exactly 5
consecutive open failures the status is disconnected, not error, the
counter is 4, not 5, and a sixth automatic attempt IS scheduled (timer 4
pending). -/
theorem C3_five_failures_cex :
    (FixedDelay.run [Event.connect, Event.sockClose 0, Event.timerFire 0,
        Event.sockClose 1, Event.timerFire 1, Event.sockClose 2, Event.timerFire 2,
        Event.sockClose 3, Event.timerFire 3, Event.sockClose 4]).store.connectionStatus
      = FixedDelay.ConnectionStatus.disconnected ∧
    (FixedDelay.run [Event.connect, Event.sockClose 0, Event.timerFire 0,
        Event.sockClose 1, Event.timerFire 1, Event.sockClose 2, Event.timerFire 2,
        Event.sockClose 3, Event.timerFire 3, Event.sockClose 4]).store.connectionStatus
      ≠ FixedDelay.ConnectionStatus.error ∧
    (FixedDelay.run [Event.connect, Event.sockClose 0, Event.timerFire 0,
        Event.sockClose 1, Event.timerFire 1, Event.sockClose 2, Event.timerFire 2,
        Event.sockClose 3, Event.timerFire 3, Event.sockClose 4]).reconnectAttempts = 4 ∧
    (FixedDelay.run [Event.connect, Event.sockClose 0, Event.timerFire 0,
        Event.sockClose 1, Event.timerFire 1, Event.sockClose 2, Event.timerFire 2,
        Event.sockClose 3, Event.timerFire 3, Event.sockClose 4]).pending = [4] := by decide

/-- C4 (amended): when the open succeeds after 2 failures, the observed
status sequence is connecting, disconnected, connecting, disconnected,
connecting, connected in the fixed-delay variant (its store has no
reconnecting status, and the failing close writes disconnected), and
disconnected, reconnecting, disconnected, reconnecting, connected in the
exponential variant (its store has no connecting status and connect writes
no status at all); in both, the final reconnectAttempts is 0. -/
theorem C4_status_sequence_two_failures :
    (FixedDelay.run [Event.connect, Event.sockClose 0, Event.timerFire 0,
        Event.sockClose 1, Event.timerFire 1, Event.sockOpen 2 7]).emitted.map
        FixedDelay.statusStr
      = ["connecting", "disconnected", "connecting", "disconnected", "connecting",
          "connected"] ∧
    (FixedDelay.run [Event.connect, Event.sockClose 0, Event.timerFire 0,
        Event.sockClose 1, Event.timerFire 1, Event.sockOpen 2 7]).reconnectAttempts = 0 ∧
    (ExpBackoff.run [Event.connect, Event.sockClose 0, Event.timerFire 0,
        Event.sockClose 1, Event.timerFire 1, Event.sockOpen 2 7]).emitted.map
        ExpBackoff.statusStr
      = ["disconnected", "reconnecting", "disconnected", "reconnecting", "connected"] ∧
    (ExpBackoff.run [Event.connect, Event.sockClose 0, Event.timerFire 0,
        Event.sockClose 1, Event.timerFire 1, Event.sockOpen 2 7]).reconnectAttempts
      = 0 := by decide

/-- C4 counterexample: neither variant produces the claimed sequence
connecting, reconnecting, connecting, reconnecting, connecting, connected
on the two-failures-then-success run — no single store even contains both
the connecting and the reconnecting literal. -/
theorem C4_claimed_sequence_cex :
    (FixedDelay.run [Event.connect, Event.sockClose 0, Event.timerFire 0,
        Event.sockClose 1, Event.timerFire 1, Event.sockOpen 2 7]).emitted.map
        FixedDelay.statusStr
      ≠ ["connecting", "reconnecting", "connecting", "reconnecting", "connecting",
          "connected"] ∧
    (ExpBackoff.run [Event.connect, Event.sockClose 0, Event.timerFire 0,
        Event.sockClose 1, Event.timerFire 1, Event.sockOpen 2 7]).emitted.map
        ExpBackoff.statusStr
      ≠ ["connecting", "reconnecting", "connecting", "reconnecting", "connecting",
          "connected"] := by decide

/-- C9: on every successful socket open (the open event of a connecting
socket), the transition into connected has exactly these effects: status
becomes connected (one observer notification), reconnectAttempts resets to
0, lastSync is set to the current time, errorMessage is cleared to null,
and the socket is now open; every other component of the state is
untouched. Stated as an equality of whole states. -/
theorem C9_onopen_effects (s : ExpBackoff.MState) (i t : Nat)
    (h : s.sockets[i]? = some ReadyState.connecting) :
    ExpBackoff.step s (Event.sockOpen i t) =
      { s with sockets := s.sockets.set i ReadyState.opened,
               store := { status := ExpBackoff.ConnectionStatus.connected,
                          lastSync := some t, errorMessage := none },
               reconnectAttempts := 0,
               emitted := s.emitted ++ [ExpBackoff.ConnectionStatus.connected] } := by
  simp [ExpBackoff.step, h, ExpBackoff.onopen, ExpBackoff.setStatus, ExpBackoff.setError,
    ExpBackoff.setLastSync]

/-- Witness for C9 at a concrete state: the socket created by a first
connect call is connecting, and its open event produces exactly the
described state. -/
theorem C9_onopen_effects_witness :
    (ExpBackoff.run [Event.connect]).sockets[0]? = some ReadyState.connecting ∧
    ExpBackoff.step (ExpBackoff.run [Event.connect]) (Event.sockOpen 0 5) =
      { ExpBackoff.run [Event.connect] with
          sockets := (ExpBackoff.run [Event.connect]).sockets.set 0 ReadyState.opened,
          store := { status := ExpBackoff.ConnectionStatus.connected,
                     lastSync := some 5, errorMessage := none },
          reconnectAttempts := 0,
          emitted := (ExpBackoff.run [Event.connect]).emitted
                      ++ [ExpBackoff.ConnectionStatus.connected] } :=
  ⟨by decide, C9_onopen_effects (ExpBackoff.run [Event.connect]) 0 5 (by decide)⟩

/-- C10: a frame whose JSON.parse fails (frame = none) leaves the WHOLE
machine state, hence the whole ConnectionState including lastSync and
errorMessage, exactly as it was: in onmessage the parse is attempted
before setLastSync runs, so the catch branch only logs. Stated without
hypotheses: on a non-open socket the event is not even deliverable and is
likewise a no-op. -/
theorem C10_malformed_frame_full_state (s : ExpBackoff.MState) (i t : Nat) :
    ExpBackoff.step s (Event.message i none t) = s := by
  simp [ExpBackoff.step, ExpBackoff.onmessage]

/-- C6: an inbound text frame that fails to parse leaves the connection
status unchanged and does not invoke the registered message handler
(delivered stays as it was); the handler body is a total function (the
exception is caught inside onmessage), so no exception escapes. -/
theorem C6_malformed_frame_dropped (s : ExpBackoff.MState) (i t : Nat)
    (h : s.sockets[i]? = some ReadyState.opened) :
    (ExpBackoff.step s (Event.message i none t)).store.status = s.store.status ∧
    (ExpBackoff.step s (Event.message i none t)).delivered = s.delivered := by
  simp [ExpBackoff.step, h, ExpBackoff.onmessage]

/-- Witness for C6 at a concrete connected state receiving an unparsable
frame. -/
theorem C6_malformed_frame_dropped_witness :
    (ExpBackoff.run [Event.connect, Event.sockOpen 0 5]).sockets[0]? = some ReadyState.opened ∧
    (ExpBackoff.step (ExpBackoff.run [Event.connect, Event.sockOpen 0 5])
        (Event.message 0 none 9)).store.status
      = (ExpBackoff.run [Event.connect, Event.sockOpen 0 5]).store.status ∧
    (ExpBackoff.step (ExpBackoff.run [Event.connect, Event.sockOpen 0 5])
        (Event.message 0 none 9)).delivered
      = (ExpBackoff.run [Event.connect, Event.sockOpen 0 5]).delivered := by
  refine ⟨by decide, ?_⟩
  exact C6_malformed_frame_dropped (ExpBackoff.run [Event.connect, Event.sockOpen 0 5]) 0 9
    (by decide)

end GenesisWS
